import Mathlib

/-!
# Scene orchestration of the SDL2 + Box2D level editor

A shallow embedding of `src/Scene.cpp`: the entity collection and its
`LoadBox` / `LoadEdge` / `RemoveInactive` operations, the event pump
`PollEvents`, the immediate-mode UI pass `UpdateUI`, one iteration of the
`Run` loop, construction and teardown of `Scene`.

SDL, Dear ImGui and Box2D are external libraries.  What they return is an
input of the model (the event queue of a frame, the widget interactions of a
frame, the handles returned by the creation calls); what the scene asks of
them is recorded, in program order, in a ghost log `calls`.
Single-precision arithmetic is modelled on rationals with an explicit
round-to-nearest-even step.
-/

namespace LevelEditor

/-! ## Single-precision floats -/

/-- Round a rational to the nearest integer, ties going to the even one
(the IEEE 754 default rounding direction). -/
def roundNearestEven (r : ℚ) : ℤ :=
  if r - ⌊r⌋ < 1 / 2 then ⌊r⌋
  else if 1 / 2 < r - ⌊r⌋ then ⌊r⌋ + 1
  else if ⌊r⌋ % 2 = 0 then ⌊r⌋ else ⌊r⌋ + 1

/-- Exponent of the unit in the last place of binary32 around `q`:
24 significand bits, and never below the subnormal spacing `2^-149`. -/
def ulpExp (q : ℚ) : ℤ := max (Int.log 2 |q| - 23) (-149)

/-- The binary32 value nearest to `q` (finite range; the operations below
add or subtract `0.5` from a finite binary32 value, which cannot overflow). -/
def roundF32 (q : ℚ) : ℚ := roundNearestEven (q / 2 ^ ulpExp q) * 2 ^ ulpExp q

/-- The finite binary32 values: `m * 2^e` with a 24-bit significand and an
exponent between the subnormal spacing `2^-149` and `2^104`. -/
def isF32 (q : ℚ) : Prop := ∃ m e : ℤ, |m| < 2 ^ 24 ∧ -149 ≤ e ∧ e ≤ 104 ∧ q = m * 2 ^ e

/-- C++ `x + y` on `float`. -/
def f32Add (x y : ℚ) : ℚ := roundF32 (x + y)

/-- C++ `x - y` on `float`. -/
def f32Sub (x y : ℚ) : ℚ := roundF32 (x - y)

/-! ## Data model -/

/-- Box2D 2-vector of `float`. -/
structure b2Vec2 where
  x : ℚ
  y : ℚ
  deriving DecidableEq, Repr

/-- Modelled from the spec: `Camera.h` is not in src.  The camera holds the
viewport width and height and a world-space center; `m_center` is taken to be
a `b2Vec2` of single-precision floats, as the `0.5f` steps in `PollEvents`
indicate. -/
structure Camera where
  m_center : b2Vec2
  m_width : Int
  m_height : Int
  deriving DecidableEq, Repr

/-- The two entity variants. -/
inductive EntityKind where
  | Box
  | Edge
  deriving DecidableEq, Repr

/-- Modelled from the spec: `Entity.h`, `Box.h` and `Edge.h` are not in src.
An entity has a variant, the handle of the body it created in the physics
world, and the activity flag (defaulted true). -/
structure Entity where
  kind : EntityKind
  body : Nat
  isActive : Bool
  deriving DecidableEq, Repr

/-- The part of `b2World` the scene relies on: the gravity vector and the
number of bodies created so far (the next body handle). -/
structure b2World where
  gravity : b2Vec2
  bodyCount : Nat
  deriving DecidableEq, Repr

/-- Key codes that `PollEvents` distinguishes. -/
inductive SDL_Keycode where
  | SDLK_ESCAPE
  | SDLK_r
  | SDLK_a
  | SDLK_d
  | SDLK_w
  | SDLK_s
  | other (code : Nat)
  deriving DecidableEq, Repr

/-- Events as `PollEvents` sees them: the event type and, for a key-down, the
key symbol. -/
inductive SDL_Event where
  | SDL_QUIT
  | SDL_KEYDOWN (sym : SDL_Keycode)
  | other (type : Nat)
  deriving DecidableEq, Repr

/-- Ghost log of what the scene does, in program order. -/
inductive Call where
  | closeGameSet
  | LoadBox
  | LoadEdge
  | clearEntities
  | SetGravity (g : b2Vec2)
  | RenderClear
  | RenderDrawData
  | RenderEntities (count : Nat)
  | RenderPresent
  | Step (gravity : b2Vec2)
  | ClearForces
  deriving DecidableEq, Repr

/-- The members of `Scene` together with the file-scope global `g_camera`
and the ghost log. -/
structure Scene where
  m_SDL_Window : Nat
  m_SDL_Renderer : Nat
  m_world : b2World
  m_entityList : List Entity
  closeGame : Bool
  g_camera : Camera
  calls : List Call
  deriving DecidableEq, Repr

/-! ## Entity loading -/

/-- Modelled from the spec: `Box.h` is not in src.  Constructing a Box and
calling `Init` creates one dynamic body in the world and yields an active
entity bound to it. -/
def Box_Init (world : b2World) : Entity × b2World :=
  (⟨EntityKind.Box, world.bodyCount, true⟩, { world with bodyCount := world.bodyCount + 1 })

/-- Modelled from the spec: `Edge.h` is not in src.  Constructing an Edge and
calling `Init` creates one static body in the world and yields an active
entity bound to it. -/
def Edge_Init (world : b2World) : Entity × b2World :=
  (⟨EntityKind.Edge, world.bodyCount, true⟩, { world with bodyCount := world.bodyCount + 1 })

/-- `Scene::LoadBox`: make a box, initialise it, `push_back` it. -/
def LoadBox (s : Scene) : Scene :=
  let box := Box_Init s.m_world
  { s with
    m_world := box.2
    m_entityList := s.m_entityList ++ [box.1]
    calls := s.calls ++ [Call.LoadBox] }

/-- `Scene::LoadEdge`: make an edge, initialise it, `push_back` it. -/
def LoadEdge (s : Scene) : Scene :=
  let edge := Edge_Init s.m_world
  { s with
    m_world := edge.2
    m_entityList := s.m_entityList ++ [edge.1]
    calls := s.calls ++ [Call.LoadEdge] }

/-- One call of a loader, as it appears in a sequence of calls. -/
inductive LoadCall where
  | LoadBox
  | LoadEdge
  deriving DecidableEq, Repr

/-- The entity variant a loader call asks for. -/
def LoadCall.kind : LoadCall → EntityKind
  | LoadCall.LoadBox => EntityKind.Box
  | LoadCall.LoadEdge => EntityKind.Edge

/-- Perform one loader call on the scene. -/
def LoadCall.run (s : Scene) : LoadCall → Scene
  | LoadCall.LoadBox => LevelEditor.LoadBox s
  | LoadCall.LoadEdge => LevelEditor.LoadEdge s

/-- `Scene::LoadEntities`. -/
def LoadEntities (s : Scene) : Scene := LoadEdge (LoadBox s)

/-! ## Event pump -/

/-- The body of the `while(SDL_PollEvent(..))` loop of `Scene::PollEvents`,
for one event. -/
def handleEvent (s : Scene) : SDL_Event → Scene
  | SDL_Event.SDL_QUIT =>
      { s with closeGame := true, calls := s.calls ++ [Call.closeGameSet] }
  | SDL_Event.SDL_KEYDOWN SDL_Keycode.SDLK_ESCAPE =>
      { s with closeGame := true, calls := s.calls ++ [Call.closeGameSet] }
  | SDL_Event.SDL_KEYDOWN SDL_Keycode.SDLK_r => LoadBox s
  | SDL_Event.SDL_KEYDOWN SDL_Keycode.SDLK_a =>
      { s with g_camera := { s.g_camera with
          m_center := { s.g_camera.m_center with x := f32Sub s.g_camera.m_center.x (1 / 2) } } }
  | SDL_Event.SDL_KEYDOWN SDL_Keycode.SDLK_d =>
      { s with g_camera := { s.g_camera with
          m_center := { s.g_camera.m_center with x := f32Add s.g_camera.m_center.x (1 / 2) } } }
  | SDL_Event.SDL_KEYDOWN SDL_Keycode.SDLK_w =>
      { s with g_camera := { s.g_camera with
          m_center := { s.g_camera.m_center with y := f32Add s.g_camera.m_center.y (1 / 2) } } }
  | SDL_Event.SDL_KEYDOWN SDL_Keycode.SDLK_s =>
      { s with g_camera := { s.g_camera with
          m_center := { s.g_camera.m_center with y := f32Sub s.g_camera.m_center.y (1 / 2) } } }
  | SDL_Event.SDL_KEYDOWN (SDL_Keycode.other _) => s
  | SDL_Event.other _ => s

/-- `Scene::PollEvents`: every pending event is taken from the queue and
handled, in order, until the queue is empty. -/
def PollEvents (s : Scene) (queue : List SDL_Event) : Scene :=
  queue.foldl handleEvent s

/-! ## Immediate-mode UI pass -/

/-- What the user does to the widgets of the control bar during one frame:
the value the `gravity.y` slider writes when it is dragged, and which of the
three buttons report a click. -/
structure UIInput where
  gravitySlider : Option ℚ
  loadBox : Bool
  loadEdge : Bool
  clearEntities : Bool
  deriving DecidableEq, Repr

/-- `Scene::UpdateUI`.  The first component is the scene after the call.  The
second component is the value of the function's local variable `gravity`
(a copy of the world's gravity that the slider edits through `&gravity.y`)
at the point where it goes out of scope; the C++ function returns `void`. -/
def UpdateUI (s : Scene) (ui : UIInput) : Scene × b2Vec2 :=
  let gravity := s.m_world.gravity
  let gravity := match ui.gravitySlider with
    | some g => { gravity with y := g }
    | none => gravity
  let s := if ui.loadBox then LoadBox s else s
  let s := if ui.loadEdge then LoadEdge s else s
  let s := if ui.clearEntities then
      { s with m_entityList := [], calls := s.calls ++ [Call.clearEntities] }
    else s
  (s, gravity)

/-! ## Main loop -/

/-- `b2World::SetGravity`. -/
def SetGravity (s : Scene) (g : b2Vec2) : Scene :=
  { s with m_world := { s.m_world with gravity := g }, calls := s.calls ++ [Call.SetGravity g] }

/-- `Scene::RenderEntities`, preceded and followed by the frame's other draw
calls in the order `Run` issues them. -/
def RenderAll (s : Scene) : Scene :=
  { s with calls := s.calls ++ [Call.RenderClear, Call.RenderDrawData,
      Call.RenderEntities s.m_entityList.length, Call.RenderPresent] }

/-- `b2World::Step` as the scene sees it: the world advances under the
gravity it holds at the time of the call. -/
def Step (s : Scene) : Scene :=
  { s with calls := s.calls ++ [Call.Step s.m_world.gravity] }

/-- `b2World::ClearForces`. -/
def ClearForces (s : Scene) : Scene :=
  { s with calls := s.calls ++ [Call.ClearForces] }

/-- The inputs of one iteration of the loop: the pending events and the
widget interactions. -/
structure FrameInput where
  events : List SDL_Event
  ui : UIInput
  deriving DecidableEq, Repr

/-- The state of the scene at the point where `Run` is about to call
`m_world->Step`, within one iteration. -/
def RunFrameToStep (s : Scene) (f : FrameInput) : Scene :=
  let s := PollEvents s f.events
  let gravity := s.m_world.gravity
  let s := (UpdateUI s f.ui).1
  let s := SetGravity s gravity
  RenderAll s

/-- One iteration of the `while(closeGame != true)` loop of `Scene::Run`. -/
def RunFrame (s : Scene) (f : FrameInput) : Scene :=
  ClearForces (Step (RunFrameToStep s f))

/-- `Scene::Run` on the inputs of the coming frames.  `some s` is the scene
with which the loop exits; `none` means the given frames ran out with the
loop still running. -/
def Run : Scene → List FrameInput → Option Scene
  | s, [] => if s.closeGame then some s else none
  | s, f :: fs => if s.closeGame then some s else Run (RunFrame s f) fs

/-! ## Removing inactive entities -/

/-- `std::find_if` from position `first` to the end: the first position whose
element satisfies `pred`, or the end position. -/
def find_if {α : Type} (pred : α → Bool) (v : List α) (first : Nat) : Nat :=
  if h : first < v.length then
    if pred v[first] then first else find_if pred v (first + 1)
  else v.length
termination_by v.length - first

/-- The compaction loop of `std::remove_if`: `i` reads, `result` writes; an
element that is kept is moved down to `result`. -/
def remove_if_loop {α : Type} (pred : α → Bool) (v : List α) (result i : Nat) : List α × Nat :=
  if h : i < v.length then
    if pred v[i] then remove_if_loop pred v result (i + 1)
    else remove_if_loop pred (v.set result v[i]) (result + 1) (i + 1)
  else (v, result)
termination_by v.length - i
decreasing_by
  all_goals simp_wf
  all_goals omega

/-- `std::remove_if` over the whole vector: the vector after compaction and
the new logical end. -/
def remove_if {α : Type} (pred : α → Bool) (v : List α) : List α × Nat :=
  let first := find_if pred v 0
  if first = v.length then (v, first)
  else remove_if_loop pred v first (first + 1)

/-- `vector::erase(first, end())`. -/
def erase_to_end {α : Type} (v : List α) (first : Nat) : List α := v.take first

/-- `Scene::RemoveInactive`: the erase-remove idiom with the predicate
`!entity->isActive`. -/
def RemoveInactive (s : Scene) : Scene :=
  let r := remove_if (fun e : Entity => !e.isActive) s.m_entityList
  { s with m_entityList := erase_to_end r.1 r.2 }

/-! ## Construction and teardown -/

/-- What the environment answers during construction.  `none` stands for a
`NULL` handle.  `windowWidth`, `windowHeight` are the `s_settings` values and
`camera` is the default-constructed `g_camera` (`Settings.h` and `Camera.h`
are not in src). -/
structure SDL_Env where
  SDL_Init : Int
  displayMode : Int × Int
  SDL_CreateWindow : Option Nat
  SDL_CreateRenderer : Nat → Option Nat
  imguiInitForSDLRenderer : Bool
  imguiRendererInit : Bool
  windowWidth : Int
  windowHeight : Int
  camera : Camera

/-- `Scene::Init_SDL_Window`: a failing `SDL_Init` is only logged; a `NULL`
window throws.  Yields the window handle and the camera with its size set. -/
def Init_SDL_Window (env : SDL_Env) : Except String (Nat × Camera) :=
  let camera := { env.camera with m_width := env.windowWidth, m_height := env.windowHeight }
  match env.SDL_CreateWindow with
  | none => Except.error "SDL_CreateWindow generate a NULL window"
  | some window => Except.ok (window, camera)

/-- `Scene::Init_SDL_Renderer`: a `NULL` renderer throws. -/
def Init_SDL_Renderer (env : SDL_Env) (window : Nat) : Except String Nat :=
  match env.SDL_CreateRenderer window with
  | none => Except.error "SDL_Renderer initialized a NULL renderer"
  | some renderer => Except.ok renderer

/-- `Scene::Scene()`: window, renderer, (ImGui set-up, whose results are not
looked at), world with gravity `(0, -10)`, the two seed entities, and the
close flag cleared. -/
def Scene_new (env : SDL_Env) : Except String Scene :=
  match Init_SDL_Window env with
  | Except.error e => Except.error e
  | Except.ok (window, camera) =>
    match Init_SDL_Renderer env window with
    | Except.error e => Except.error e
    | Except.ok renderer =>
      let s : Scene :=
        { m_SDL_Window := window
          m_SDL_Renderer := renderer
          m_world := { gravity := ⟨0, -10⟩, bodyCount := 0 }
          m_entityList := []
          closeGame := false
          g_camera := camera
          calls := [] }
      Except.ok { LoadEntities s with closeGame := false }

/-- The steps of tearing a scene down. -/
inductive Teardown where
  | SDL_DestroyRenderer (renderer : Nat)
  | SDL_DestroyWindow (window : Nat)
  | SDL_Quit
  | destroyEntity (e : Entity)
  | destroyWorld
  deriving DecidableEq, Repr

/-- The body of `Scene::~Scene()`. -/
def Scene_dtor_body (s : Scene) : List Teardown :=
  [Teardown.SDL_DestroyRenderer s.m_SDL_Renderer, Teardown.SDL_DestroyWindow s.m_SDL_Window,
    Teardown.SDL_Quit]

/-- Modelled from the spec: `Scene.h` is not in src.  `m_world` and
`m_entityList` are owning members (`std::make_unique` and
`push_back(std::move(..))` in `Scene.cpp`), so the language destroys them
after the destructor body has run, in reverse order of declaration;
`worldDeclaredFirst` says whether `m_world` is declared before
`m_entityList`. -/
def memberDestruction (worldDeclaredFirst : Bool) (s : Scene) : List Teardown :=
  if worldDeclaredFirst then
    s.m_entityList.map Teardown.destroyEntity ++ [Teardown.destroyWorld]
  else
    Teardown.destroyWorld :: s.m_entityList.map Teardown.destroyEntity

/-- Everything that happens when a `Scene` is destroyed, in order. -/
def Scene_destroy (worldDeclaredFirst : Bool) (s : Scene) : List Teardown :=
  Scene_dtor_body s ++ memberDestruction worldDeclaredFirst s

/-! ## Concrete inputs -/

/-- An environment in which every creation call succeeds. -/
def exampleEnv : SDL_Env :=
  { SDL_Init := 0
    displayMode := (1920, 1080)
    SDL_CreateWindow := some 1
    SDL_CreateRenderer := fun _ => some 2
    imguiInitForSDLRenderer := true
    imguiRendererInit := true
    windowWidth := 1280
    windowHeight := 720
    camera := ⟨⟨0, 0⟩, 0, 0⟩ }

/-- An environment in which `SDL_CreateWindow` returns `NULL`. -/
def noWindowEnv : SDL_Env := { exampleEnv with SDL_CreateWindow := none }

/-- An environment in which `SDL_CreateRenderer` returns `NULL`, and
`SDL_Init` reports an error as well. -/
def noRendererEnv : SDL_Env :=
  { exampleEnv with SDL_Init := -1, SDL_CreateRenderer := fun _ => none }

/-- The scene that construction yields in `exampleEnv`. -/
def exampleScene : Scene :=
  { m_SDL_Window := 1
    m_SDL_Renderer := 2
    m_world := { gravity := ⟨0, -10⟩, bodyCount := 2 }
    m_entityList := [⟨EntityKind.Box, 0, true⟩, ⟨EntityKind.Edge, 1, true⟩]
    closeGame := false
    g_camera := ⟨⟨0, 0⟩, 1280, 720⟩
    calls := [Call.LoadBox, Call.LoadEdge] }

/-- A frame with no events in which only "clear Entities" is clicked. -/
def clearClick : UIInput :=
  { gravitySlider := none, loadBox := false, loadEdge := false, clearEntities := true }

/-- A frame with no events and no widget interaction. -/
def idleUI : UIInput :=
  { gravitySlider := none, loadBox := false, loadEdge := false, clearEntities := false }

/-- A frame in which the `gravity.y` slider is dragged to `-5`. -/
def gravityDrag : UIInput :=
  { gravitySlider := some (-5), loadBox := false, loadEdge := false, clearEntities := false }

/-- A frame whose queue holds a quit event followed by a key-down of `r`. -/
def quitThenR : FrameInput :=
  ⟨[SDL_Event.SDL_QUIT, SDL_Event.SDL_KEYDOWN SDL_Keycode.SDLK_r], idleUI⟩

/-- The example scene with the camera centered at `(x, y)`. -/
def sceneAt (x y : ℚ) : Scene :=
  { exampleScene with g_camera := ⟨⟨x, y⟩, 1280, 720⟩ }

/-! ## Properties of logs, as the claims state them -/

/-- Whether a logged call is a physics step. -/
def isStep : Call → Bool
  | Call.Step _ => true
  | _ => false

/-- In a log: after the close flag has been set, no box is loaded and the
world is not stepped. -/
def NoLoadOrStepAfterClose (calls : List Call) : Prop :=
  ∀ pre post : List Call, calls = pre ++ Call.closeGameSet :: post →
    Call.LoadBox ∉ post ∧ ∀ g, Call.Step g ∉ post

/-- Whether a teardown step releases the renderer or the window. -/
def isRelease : Teardown → Bool
  | Teardown.SDL_DestroyRenderer _ => true
  | Teardown.SDL_DestroyWindow _ => true
  | _ => false

/-- In a teardown sequence: when the renderer or the window is released, the
world and every entity have already been destroyed (none is destroyed
later). -/
def ReleasedAfterTeardown (t : List Teardown) : Prop :=
  ∀ (pre post : List Teardown) (x : Teardown), t = pre ++ x :: post → isRelease x = true →
    Teardown.destroyWorld ∉ post ∧ ∀ e, Teardown.destroyEntity e ∉ post

/-! ## Entity loading: theorems -/

theorem LoadBox_entityList (s : Scene) :
    (LoadBox s).m_entityList = s.m_entityList ++ [⟨EntityKind.Box, s.m_world.bodyCount, true⟩] :=
  rfl

theorem LoadEdge_entityList (s : Scene) :
    (LoadEdge s).m_entityList = s.m_entityList ++ [⟨EntityKind.Edge, s.m_world.bodyCount, true⟩] :=
  rfl

theorem LoadCall_run_entityList (s : Scene) (c : LoadCall) :
    ∃ e : Entity, e.kind = c.kind ∧ (c.run s).m_entityList = s.m_entityList ++ [e] := by
  cases c
  · exact ⟨_, rfl, LoadBox_entityList s⟩
  · exact ⟨_, rfl, LoadEdge_entityList s⟩

theorem LoadCall_foldl_entityList (cs : List LoadCall) (s : Scene) :
    ∃ es : List Entity, es.map Entity.kind = cs.map LoadCall.kind ∧
      (cs.foldl LoadCall.run s).m_entityList = s.m_entityList ++ es := by
  induction cs generalizing s with
  | nil => exact ⟨[], rfl, by simp⟩
  | cons c cs ih =>
    obtain ⟨e, hk, he⟩ := LoadCall_run_entityList s c
    obtain ⟨es, hks, hes⟩ := ih (c.run s)
    refine ⟨e :: es, by simp [hk, hks], ?_⟩
    rw [List.foldl_cons, hes, he, List.append_assoc, List.singleton_append]

/-- C1: every LoadBox / LoadEdge call makes the collection exactly one longer
by appending one entity of the requested kind at the end, the earlier entries
staying as they were; so a sequence of calls appends, in call order, one
entity of the requested kind per call. -/
theorem load_calls_append (s : Scene) (cs : List LoadCall) :
    (∀ (t : Scene) (c : LoadCall), ∃ e : Entity, e.kind = c.kind ∧
        (c.run t).m_entityList = t.m_entityList ++ [e] ∧
        (c.run t).m_entityList.length = t.m_entityList.length + 1) ∧
    (∃ es : List Entity, es.map Entity.kind = cs.map LoadCall.kind ∧
        (cs.foldl LoadCall.run s).m_entityList = s.m_entityList ++ es ∧
        (cs.foldl LoadCall.run s).m_entityList.length = s.m_entityList.length + cs.length) := by
  constructor
  · intro t c
    obtain ⟨e, hk, he⟩ := LoadCall_run_entityList t c
    exact ⟨e, hk, he, by simp [he]⟩
  · obtain ⟨es, hk, he⟩ := LoadCall_foldl_entityList cs s
    refine ⟨es, hk, he, ?_⟩
    have hl : es.length = cs.length := by
      simpa using congrArg List.length hk
    simp [he, hl]

/-! ## The `r` key -/

theorem PollEvents_nil (s : Scene) : PollEvents s [] = s := rfl

theorem PollEvents_cons (s : Scene) (e : SDL_Event) (q : List SDL_Event) :
    PollEvents s (e :: q) = PollEvents (handleEvent s e) q := rfl

theorem PollEvents_append (s : Scene) (q r : List SDL_Event) :
    PollEvents s (q ++ r) = PollEvents (PollEvents s q) r := by
  simp [PollEvents, List.foldl_append]

theorem PollEvents_r_entityList (n : Nat) (s : Scene) :
    ∃ bs : List Entity, bs.length = n ∧ (∀ b ∈ bs, b.kind = EntityKind.Box) ∧
      (PollEvents s (List.replicate n (SDL_Event.SDL_KEYDOWN SDL_Keycode.SDLK_r))).m_entityList
        = s.m_entityList ++ bs := by
  induction n generalizing s with
  | zero => exact ⟨[], rfl, by simp, by simp [PollEvents]⟩
  | succ n ih =>
    obtain ⟨bs, hl, hk, hb⟩ := ih (LoadBox s)
    refine ⟨⟨EntityKind.Box, s.m_world.bodyCount, true⟩ :: bs, by simp [hl], ?_, ?_⟩
    · intro b hb
      rcases List.mem_cons.mp hb with h | h
      · rw [h]
      · exact hk b h
    · rw [List.replicate_succ, PollEvents_cons]
      show (PollEvents (LoadBox s) _).m_entityList = _
      rw [hb, LoadBox_entityList, List.append_assoc, List.singleton_append]

theorem Scene_new_entityList (env : SDL_Env) (s : Scene) (h : Scene_new env = Except.ok s) :
    s.m_entityList = [⟨EntityKind.Box, 0, true⟩, ⟨EntityKind.Edge, 1, true⟩] := by
  unfold Scene_new at h
  split at h
  · exact absurd h (by simp)
  · split at h
    · exact absurd h (by simp)
    · injection h with h
      rw [← h]
      rfl

/-- C5: the scene the constructor seeds holds one Box followed by one Edge,
and handling n key-downs of r yields those two entries, unchanged and in
order, followed by n new Boxes: length 2 + n, and 5 for n = 3. -/
theorem r_presses_on_default_scene (env : SDL_Env) (s : Scene)
    (h : Scene_new env = Except.ok s) (n : Nat) :
    s.m_entityList.map Entity.kind = [EntityKind.Box, EntityKind.Edge] ∧
    (∃ bs : List Entity, bs.length = n ∧ (∀ b ∈ bs, b.kind = EntityKind.Box) ∧
      (PollEvents s (List.replicate n (SDL_Event.SDL_KEYDOWN SDL_Keycode.SDLK_r))).m_entityList
        = s.m_entityList ++ bs) ∧
    (PollEvents s (List.replicate n (SDL_Event.SDL_KEYDOWN SDL_Keycode.SDLK_r))).m_entityList.length
      = 2 + n ∧
    (PollEvents s (List.replicate 3 (SDL_Event.SDL_KEYDOWN SDL_Keycode.SDLK_r))).m_entityList.length
      = 5 := by
  have h0 := Scene_new_entityList env s h
  refine ⟨by rw [h0]; rfl, PollEvents_r_entityList n s, ?_, ?_⟩
  · obtain ⟨bs, hl, -, hb⟩ := PollEvents_r_entityList n s
    rw [hb, h0]
    simp [hl]
    omega
  · obtain ⟨bs, hl, -, hb⟩ := PollEvents_r_entityList 3 s
    rw [hb, h0]
    simp [hl]

/-- Witness for C5: the scene constructed in `exampleEnv`, three presses of r. -/
theorem r_presses_on_default_scene_witness :
    Scene_new exampleEnv = Except.ok exampleScene ∧
    (PollEvents exampleScene
      (List.replicate 3 (SDL_Event.SDL_KEYDOWN SDL_Keycode.SDLK_r))).m_entityList.length = 5 :=
  ⟨rfl, (r_presses_on_default_scene exampleEnv exampleScene rfl 3).2.2.2⟩

/-! ## Clearing the collection -/

theorem UpdateUI_clear (s : Scene) (ui : UIInput) (h : ui.clearEntities = true) :
    (UpdateUI s ui).1.m_entityList = [] := by
  simp [UpdateUI, h]

theorem RunFrame_entityList (s : Scene) (f : FrameInput) :
    (RunFrame s f).m_entityList = (UpdateUI (PollEvents s f.events) f.ui).1.m_entityList :=
  rfl

/-- C6: whatever the collection holds, the "clear Entities" action of UpdateUI
leaves it empty (also at the end of the frame in which it is clicked), and one
key-down of r handled by PollEvents afterwards yields a collection of length 1
holding exactly one Box. -/
theorem clear_then_r (s : Scene) (ui : UIInput) (h : ui.clearEntities = true) :
    (UpdateUI s ui).1.m_entityList = [] ∧
    (∀ events : List SDL_Event, (RunFrame s ⟨events, ui⟩).m_entityList = []) ∧
    (∃ b : Entity, b.kind = EntityKind.Box ∧
      (PollEvents (UpdateUI s ui).1
        [SDL_Event.SDL_KEYDOWN SDL_Keycode.SDLK_r]).m_entityList = [b] ∧
      (PollEvents (UpdateUI s ui).1
        [SDL_Event.SDL_KEYDOWN SDL_Keycode.SDLK_r]).m_entityList.length = 1) := by
  have h0 := UpdateUI_clear s ui h
  refine ⟨h0, ?_, ⟨EntityKind.Box, (UpdateUI s ui).1.m_world.bodyCount, true⟩, rfl, ?_, ?_⟩
  · intro events
    rw [RunFrame_entityList]
    exact UpdateUI_clear _ ui h
  · show (LoadBox (UpdateUI s ui).1).m_entityList = _
    rw [LoadBox_entityList, h0, List.nil_append]
  · show (LoadBox (UpdateUI s ui).1).m_entityList.length = 1
    rw [LoadBox_entityList, h0]
    rfl

/-- Witness for C6: clearing the two-entity scene, then one press of r. -/
theorem clear_then_r_witness :
    clearClick.clearEntities = true ∧
    (UpdateUI exampleScene clearClick).1.m_entityList = [] ∧
    (PollEvents (UpdateUI exampleScene clearClick).1
      [SDL_Event.SDL_KEYDOWN SDL_Keycode.SDLK_r]).m_entityList.length = 1 :=
  ⟨rfl, (clear_then_r exampleScene clearClick rfl).1,
    (clear_then_r exampleScene clearClick rfl).2.2.elim fun _ hb => hb.2.2⟩

/-! ## Construction -/

/-- C7: construction raises exactly when window creation returns no window or
renderer creation returns no renderer, each with its own error; in every
other case it completes, whatever SDL_Init, the display-mode query and the
ImGui set-up calls return. -/
theorem construction_fails_iff (env : SDL_Env) :
    ((∃ msg, Scene_new env = Except.error msg) ↔
      (env.SDL_CreateWindow = none ∨
        ∃ w, env.SDL_CreateWindow = some w ∧ env.SDL_CreateRenderer w = none)) ∧
    (env.SDL_CreateWindow = none →
      Scene_new env = Except.error "SDL_CreateWindow generate a NULL window") ∧
    (∀ w, env.SDL_CreateWindow = some w → env.SDL_CreateRenderer w = none →
      Scene_new env = Except.error "SDL_Renderer initialized a NULL renderer") ∧
    (∀ w r, env.SDL_CreateWindow = some w → env.SDL_CreateRenderer w = some r →
      ∃ s, Scene_new env = Except.ok s ∧ s.m_SDL_Window = w ∧ s.m_SDL_Renderer = r ∧
        s.closeGame = false) := by
  have hw : env.SDL_CreateWindow = none →
      Scene_new env = Except.error "SDL_CreateWindow generate a NULL window" := by
    intro h
    simp [Scene_new, Init_SDL_Window, h]
  have hr : ∀ w, env.SDL_CreateWindow = some w → env.SDL_CreateRenderer w = none →
      Scene_new env = Except.error "SDL_Renderer initialized a NULL renderer" := by
    intro w h1 h2
    simp [Scene_new, Init_SDL_Window, Init_SDL_Renderer, h1, h2]
  have hok : ∀ w r, env.SDL_CreateWindow = some w → env.SDL_CreateRenderer w = some r →
      ∃ s, Scene_new env = Except.ok s ∧ s.m_SDL_Window = w ∧ s.m_SDL_Renderer = r ∧
        s.closeGame = false := by
    intro w r h1 h2
    simp [Scene_new, Init_SDL_Window, Init_SDL_Renderer, h1, h2, LoadEntities, LoadEdge, LoadBox]
  refine ⟨⟨?_, ?_⟩, hw, hr, hok⟩
  · rintro ⟨msg, hmsg⟩
    cases h1 : env.SDL_CreateWindow with
    | none => exact Or.inl rfl
    | some w =>
      right
      refine ⟨w, rfl, ?_⟩
      cases h2 : env.SDL_CreateRenderer w with
      | none => rfl
      | some r =>
        obtain ⟨s, hs, -⟩ := hok w r h1 h2
        rw [hs] at hmsg
        exact absurd hmsg (by simp)
  · rintro (h | ⟨w, h1, h2⟩)
    · exact ⟨_, hw h⟩
    · exact ⟨_, hr w h1 h2⟩

/-- Witness for C7: a missing window and a missing renderer each raise, and
the environment where both are created constructs the scene. -/
theorem construction_fails_iff_witness :
    Scene_new noWindowEnv = Except.error "SDL_CreateWindow generate a NULL window" ∧
    Scene_new noRendererEnv = Except.error "SDL_Renderer initialized a NULL renderer" ∧
    (∃ s, Scene_new exampleEnv = Except.ok s ∧ s.m_SDL_Window = 1 ∧ s.m_SDL_Renderer = 2 ∧
      s.closeGame = false) :=
  ⟨(construction_fails_iff noWindowEnv).2.1 rfl,
    (construction_fails_iff noRendererEnv).2.2.1 1 rfl rfl,
    (construction_fails_iff exampleEnv).2.2.2 1 2 rfl rfl⟩

/-! ## The erase-remove idiom is a stable filter -/

theorem remove_if_loop_take {α : Type} (pred : α → Bool) (k : Nat) :
    ∀ (v : List α) (result i : Nat), v.length - i = k → result ≤ i →
      (remove_if_loop pred v result i).1.take (remove_if_loop pred v result i).2
        = v.take result ++ (v.drop i).filter (fun a => !pred a) := by
  induction k with
  | zero =>
    intro v result i hk _
    have hi : ¬ i < v.length := by omega
    rw [remove_if_loop, dif_neg hi, List.drop_of_length_le (by omega)]
    simp
  | succ k ih =>
    intro v result i hk hri
    have hi : i < v.length := by omega
    have hd : (v.drop i).filter (fun a => !pred a)
        = (if pred v[i] = true then [] else [v[i]]) ++ (v.drop (i + 1)).filter (fun a => !pred a) := by
      rw [List.drop_eq_getElem_cons hi, List.filter_cons]
      by_cases hp : pred v[i] = true <;> simp [hp]
    rw [remove_if_loop, dif_pos hi, hd]
    by_cases hp : pred v[i] = true
    · rw [if_pos hp, if_pos hp, ih v result (i + 1) (by omega) (by omega), List.nil_append]
    · have hr : result < v.length := by omega
      have ht : (v.set result v[i]).take (result + 1) = v.take result ++ [v[i]] := by
        rw [List.set_eq_take_append_cons_drop, if_pos hr, List.take_append_eq_append_take]
        simp [List.length_take, Nat.min_eq_left (Nat.le_of_lt hr)]
      rw [if_neg hp, if_neg hp, ih (v.set result v[i]) (result + 1) (i + 1)
        (by rw [List.length_set]; omega) (by omega)]
      rw [List.drop_set_of_lt _ _ (by omega), ht, List.append_assoc]

theorem remove_if_from_take {α : Type} (pred : α → Bool) (v : List α) (k : Nat) :
    ∀ first : Nat, v.length - first = k →
      (if find_if pred v first = v.length then (v, find_if pred v first)
        else remove_if_loop pred v (find_if pred v first) (find_if pred v first + 1)).1.take
      (if find_if pred v first = v.length then (v, find_if pred v first)
        else remove_if_loop pred v (find_if pred v first) (find_if pred v first + 1)).2
        = v.take first ++ (v.drop first).filter (fun a => !pred a) := by
  induction k with
  | zero =>
    intro first hk
    have hi : ¬ first < v.length := by omega
    rw [find_if, dif_neg hi, if_pos rfl]
    show v.take v.length = _
    rw [List.take_length, List.drop_of_length_le (by omega),
      List.take_of_length_le (by omega)]
    simp
  | succ k ih =>
    intro first hk
    have hi : first < v.length := by omega
    have hd : (v.drop first).filter (fun a => !pred a)
        = (if pred v[first] = true then [] else [v[first]])
          ++ (v.drop (first + 1)).filter (fun a => !pred a) := by
      rw [List.drop_eq_getElem_cons hi, List.filter_cons]
      by_cases hp : pred v[first] = true <;> simp [hp]
    rw [find_if, dif_pos hi, hd]
    by_cases hp : pred v[first] = true
    · rw [if_pos hp, if_pos hp, if_neg (Nat.ne_of_lt hi), List.nil_append]
      exact remove_if_loop_take pred _ v first (first + 1) rfl (Nat.le_succ first)
    · have ht : v.take (first + 1) = v.take first ++ [v[first]] := by
        rw [List.take_succ, List.getElem?_eq_getElem hi]
        rfl
      rw [if_neg hp, if_neg hp, ih (first + 1) (by omega), ht, List.append_assoc]

/-- The erase-remove idiom keeps exactly the elements that fail the
predicate, in their original order. -/
theorem erase_remove_if_eq_filter {α : Type} (pred : α → Bool) (v : List α) :
    erase_to_end (remove_if pred v).1 (remove_if pred v).2 = v.filter (fun a => !pred a) := by
  have h := remove_if_from_take pred v _ 0 rfl
  simpa [erase_to_end, remove_if] using h

theorem RemoveInactive_entityList (s : Scene) :
    (RemoveInactive s).m_entityList = s.m_entityList.filter (fun e => e.isActive) := by
  have h := erase_remove_if_eq_filter (fun e : Entity => !e.isActive) s.m_entityList
  simpa [RemoveInactive] using h

/-- C8: RemoveInactive leaves exactly the entries whose isActive flag is true,
in the relative order they had before the call, and touches nothing else of
the scene. -/
theorem RemoveInactive_stable_filter (s : Scene) :
    RemoveInactive s = { s with m_entityList := s.m_entityList.filter (fun e => e.isActive) } := by
  have h := RemoveInactive_entityList s
  unfold RemoveInactive at h ⊢
  simp only at h ⊢
  rw [h]

/-- C9: applying RemoveInactive twice in succession gives the same collection
as applying it once, and on a collection whose entries are all active it
changes nothing. -/
theorem RemoveInactive_idempotent (s : Scene) :
    RemoveInactive (RemoveInactive s) = RemoveInactive s ∧
    ((∀ e ∈ s.m_entityList, e.isActive = true) → RemoveInactive s = s) := by
  have key : ∀ t : Scene, RemoveInactive t
      = { t with m_entityList := t.m_entityList.filter (fun e => e.isActive) } := by
    intro t
    have h := RemoveInactive_entityList t
    unfold RemoveInactive at h ⊢
    simp only at h ⊢
    rw [h]
  constructor
  · rw [key (RemoveInactive s), key s]
    simp
  · intro hall
    rw [key s, List.filter_eq_self.mpr hall]

/-- Witness for C9: the two seed entities are active, so RemoveInactive leaves
the example scene as it is. -/
theorem RemoveInactive_idempotent_witness : RemoveInactive exampleScene = exampleScene :=
  (RemoveInactive_idempotent exampleScene).2 (by simp [exampleScene])

/-! ## Gravity and the UI pass -/

theorem handleEvent_gravity (s : Scene) (e : SDL_Event) :
    (handleEvent s e).m_world.gravity = s.m_world.gravity := by
  cases e with
  | SDL_QUIT => rfl
  | SDL_KEYDOWN sym => cases sym <;> rfl
  | other t => rfl

theorem PollEvents_gravity (q : List SDL_Event) (s : Scene) :
    (PollEvents s q).m_world.gravity = s.m_world.gravity := by
  induction q generalizing s with
  | nil => rfl
  | cons e q ih => rw [PollEvents_cons, ih, handleEvent_gravity]

/-- Whatever the slider does, the world enters `Step` with the gravity it had
when the frame began: `Run` writes back its own copy, taken before the UI
pass, and the copy the slider edits is local to `UpdateUI`. -/
theorem RunFrameToStep_gravity (s : Scene) (f : FrameInput) :
    (RunFrameToStep s f).m_world.gravity = s.m_world.gravity := by
  show (PollEvents s f.events).m_world.gravity = _
  exact PollEvents_gravity f.events s

/-- C2 (fails on the code): in a frame where the gravity.y slider is dragged
from -10 to -5, the edited value (0, -5) exists only in the local copy inside
UpdateUI; the world is stepped with gravity (0, -10). -/
theorem gravity_slider_edit_lost :
    exampleScene.m_world.gravity = ⟨0, -10⟩ ∧
    (UpdateUI (PollEvents exampleScene []) gravityDrag).2 = ⟨0, -5⟩ ∧
    (RunFrameToStep exampleScene ⟨[], gravityDrag⟩).m_world.gravity = ⟨0, -10⟩ ∧
    (RunFrame exampleScene ⟨[], gravityDrag⟩).calls =
      [Call.LoadBox, Call.LoadEdge, Call.SetGravity ⟨0, -10⟩, Call.RenderClear,
        Call.RenderDrawData, Call.RenderEntities 2, Call.RenderPresent, Call.Step ⟨0, -10⟩,
        Call.ClearForces] ∧
    (RunFrameToStep exampleScene ⟨[], gravityDrag⟩).m_world.gravity ≠ ⟨0, -5⟩ := by
  refine ⟨rfl, rfl, rfl, rfl, ?_⟩
  show (⟨0, -10⟩ : b2Vec2) ≠ ⟨0, -5⟩
  intro h
  injection h with _ hy
  norm_num at hy

/-! ## Quitting -/

theorem LoadBox_closeGame (s : Scene) : (LoadBox s).closeGame = s.closeGame := rfl

theorem LoadEdge_closeGame (s : Scene) : (LoadEdge s).closeGame = s.closeGame := rfl

theorem handleEvent_closeGame_mono (s : Scene) (e : SDL_Event) (h : s.closeGame = true) :
    (handleEvent s e).closeGame = true := by
  cases e with
  | SDL_QUIT => rfl
  | SDL_KEYDOWN sym => cases sym <;> first | rfl | exact h
  | other t => exact h

theorem PollEvents_closeGame_mono (q : List SDL_Event) (s : Scene) (h : s.closeGame = true) :
    (PollEvents s q).closeGame = true := by
  induction q generalizing s with
  | nil => exact h
  | cons e q ih => exact ih _ (handleEvent_closeGame_mono s e h)

theorem PollEvents_closeGame_of_quit (q : List SDL_Event) (s : Scene)
    (h : SDL_Event.SDL_QUIT ∈ q ∨ SDL_Event.SDL_KEYDOWN SDL_Keycode.SDLK_ESCAPE ∈ q) :
    (PollEvents s q).closeGame = true := by
  induction q generalizing s with
  | nil => simp at h
  | cons e q ih =>
    rw [PollEvents_cons]
    by_cases he : e = SDL_Event.SDL_QUIT ∨ e = SDL_Event.SDL_KEYDOWN SDL_Keycode.SDLK_ESCAPE
    · apply PollEvents_closeGame_mono
      rcases he with he | he <;> rw [he] <;> rfl
    · apply ih
      rcases h with h | h
      · rcases List.mem_cons.mp h with h | h
        · exact absurd (Or.inl h.symm) he
        · exact Or.inl h
      · rcases List.mem_cons.mp h with h | h
        · exact absurd (Or.inr h.symm) he
        · exact Or.inr h

theorem UpdateUI_closeGame (s : Scene) (ui : UIInput) :
    (UpdateUI s ui).1.closeGame = s.closeGame := by
  unfold UpdateUI
  cases ui.loadBox <;> cases ui.loadEdge <;> cases ui.clearEntities <;> rfl

theorem RunFrame_closeGame (s : Scene) (f : FrameInput) :
    (RunFrame s f).closeGame = (PollEvents s f.events).closeGame := by
  show (UpdateUI (PollEvents s f.events) f.ui).1.closeGame = _
  exact UpdateUI_closeGame _ _

theorem handleEvent_count_LoadBox (s : Scene) (e : SDL_Event) :
    (handleEvent s e).calls.count Call.LoadBox
      = s.calls.count Call.LoadBox
        + [e].count (SDL_Event.SDL_KEYDOWN SDL_Keycode.SDLK_r) := by
  cases e with
  | SDL_QUIT => simp [handleEvent]
  | SDL_KEYDOWN sym => cases sym <;> simp [handleEvent, LoadBox]
  | other t => simp [handleEvent]

theorem PollEvents_count_LoadBox (q : List SDL_Event) (s : Scene) :
    (PollEvents s q).calls.count Call.LoadBox
      = s.calls.count Call.LoadBox + q.count (SDL_Event.SDL_KEYDOWN SDL_Keycode.SDLK_r) := by
  induction q generalizing s with
  | nil => simp [PollEvents]
  | cons e q ih =>
    rw [PollEvents_cons, ih, handleEvent_count_LoadBox]
    have hc : (e :: q).count (SDL_Event.SDL_KEYDOWN SDL_Keycode.SDLK_r)
        = [e].count (SDL_Event.SDL_KEYDOWN SDL_Keycode.SDLK_r)
          + q.count (SDL_Event.SDL_KEYDOWN SDL_Keycode.SDLK_r) := by
      rw [← List.count_append]
      rfl
    omega

theorem handleEvent_countP_isStep (s : Scene) (e : SDL_Event) :
    (handleEvent s e).calls.countP isStep = s.calls.countP isStep := by
  cases e with
  | SDL_QUIT => simp [handleEvent, isStep]
  | SDL_KEYDOWN sym => cases sym <;> simp [handleEvent, LoadBox, isStep]
  | other t => simp [handleEvent]

theorem PollEvents_countP_isStep (q : List SDL_Event) (s : Scene) :
    (PollEvents s q).calls.countP isStep = s.calls.countP isStep := by
  induction q generalizing s with
  | nil => rfl
  | cons e q ih => rw [PollEvents_cons, ih, handleEvent_countP_isStep]

theorem UpdateUI_countP_isStep (s : Scene) (ui : UIInput) :
    (UpdateUI s ui).1.calls.countP isStep = s.calls.countP isStep := by
  unfold UpdateUI
  cases ui.loadBox <;> cases ui.loadEdge <;> cases ui.clearEntities <;>
    simp [LoadBox, LoadEdge, isStep]

theorem RunFrame_countP_isStep (s : Scene) (f : FrameInput) :
    (RunFrame s f).calls.countP isStep = s.calls.countP isStep + 1 := by
  have h : (RunFrame s f).calls
      = (UpdateUI (PollEvents s f.events) f.ui).1.calls
        ++ [Call.SetGravity (PollEvents s f.events).m_world.gravity, Call.RenderClear,
          Call.RenderDrawData,
          Call.RenderEntities (UpdateUI (PollEvents s f.events) f.ui).1.m_entityList.length,
          Call.RenderPresent, Call.Step (PollEvents s f.events).m_world.gravity,
          Call.ClearForces] := by
    simp [RunFrame, RunFrameToStep, ClearForces, Step, RenderAll, SetGravity]
  rw [h, List.countP_append, UpdateUI_countP_isStep, PollEvents_countP_isStep]
  simp [List.countP_cons, isStep]

/-- C3 as stated fails: with a quit event followed by a key-down of r in the
queue, the iteration still loads a box and still steps the world after the
close flag has been set. -/
theorem quit_does_not_stop_iteration :
    (RunFrame exampleScene quitThenR).calls =
      [Call.LoadBox, Call.LoadEdge, Call.closeGameSet, Call.LoadBox, Call.SetGravity ⟨0, -10⟩,
        Call.RenderClear, Call.RenderDrawData, Call.RenderEntities 3, Call.RenderPresent,
        Call.Step ⟨0, -10⟩, Call.ClearForces] ∧
    ¬ NoLoadOrStepAfterClose (RunFrame exampleScene quitThenR).calls := by
  refine ⟨rfl, ?_⟩
  intro h
  have h1 := (h [Call.LoadBox, Call.LoadEdge]
    [Call.LoadBox, Call.SetGravity ⟨0, -10⟩, Call.RenderClear, Call.RenderDrawData,
      Call.RenderEntities 3, Call.RenderPresent, Call.Step ⟨0, -10⟩, Call.ClearForces] rfl).1
  exact h1 (List.mem_cons_self _ _)

/-- C3, amended: when a quit event or an Escape key-down is in the queue of an
iteration, the close flag is set and Run exits with the state at the end of
that same iteration, whatever input later frames would bring; within that
iteration every event of the queue is still handled (one box per key-down of
r, wherever the quit stands) and the world is stepped exactly once, at the
end. -/
theorem quit_ends_loop_after_iteration (s : Scene) (f : FrameInput) (fs : List FrameInput)
    (hrun : s.closeGame = false)
    (hq : SDL_Event.SDL_QUIT ∈ f.events ∨
      SDL_Event.SDL_KEYDOWN SDL_Keycode.SDLK_ESCAPE ∈ f.events) :
    (RunFrame s f).closeGame = true ∧
    Run s (f :: fs) = some (RunFrame s f) ∧
    (PollEvents s f.events).calls.count Call.LoadBox
      = s.calls.count Call.LoadBox
        + f.events.count (SDL_Event.SDL_KEYDOWN SDL_Keycode.SDLK_r) ∧
    (RunFrame s f).calls = (RunFrameToStep s f).calls
      ++ [Call.Step (RunFrameToStep s f).m_world.gravity, Call.ClearForces] ∧
    (RunFrame s f).calls.countP isStep = s.calls.countP isStep + 1 := by
  have hc : (RunFrame s f).closeGame = true := by
    rw [RunFrame_closeGame]
    exact PollEvents_closeGame_of_quit f.events s hq
  refine ⟨hc, ?_, PollEvents_count_LoadBox f.events s, ?_, RunFrame_countP_isStep s f⟩
  · cases fs with
    | nil => simp [Run, hrun, hc]
    | cons g gs => simp [Run, hrun, hc]
  · simp [RunFrame, ClearForces, Step]

/-- Witness for C3 amended: the example scene, a queue with a quit event
followed by a key-down of r, and one more frame of input that is never
consumed. -/
theorem quit_ends_loop_after_iteration_witness :
    Run exampleScene [quitThenR, quitThenR] = some (RunFrame exampleScene quitThenR) :=
  (quit_ends_loop_after_iteration exampleScene quitThenR [quitThenR] rfl
    (Or.inl (List.mem_cons_self _ _))).2.1

/-! ## Camera steps in single precision -/

theorem log2_eq_of_bounds {r : ℚ} {k : ℤ} (hl : (2 : ℚ) ^ k ≤ r) (hu : r < (2 : ℚ) ^ (k + 1)) :
    Int.log 2 r = k := by
  have h0 : 0 < r := lt_of_lt_of_le (by positivity) hl
  have h1 : k ≤ Int.log 2 r := by
    rw [← Int.zpow_le_iff_le_log (by norm_num) h0]
    simpa using hl
  have h2 : Int.log 2 r < k + 1 := by
    rw [← Int.lt_zpow_iff_log_lt (by norm_num) h0]
    simpa using hu
  omega

theorem ulpExp_two_pow_24_half : ulpExp (16777216 + 1 / 2) = 1 := by
  have h : Int.log 2 |(16777216 + 1 / 2 : ℚ)| = 24 := by
    apply log2_eq_of_bounds
    · rw [abs_of_pos (by norm_num)]; norm_num
    · rw [abs_of_pos (by norm_num)]; norm_num
  rw [ulpExp, h]; rfl

theorem roundNearestEven_quarter : roundNearestEven (33554433 / 4) = 8388608 := by
  have hf : ⌊(33554433 / 4 : ℚ)⌋ = 8388608 := by
    rw [Int.floor_eq_iff]; constructor <;> norm_num
  unfold roundNearestEven
  rw [hf]
  norm_num

/-- In binary32 the spacing at `2^24` is `2`, so `2^24 + 0.5` rounds back to
`2^24`. -/
theorem roundF32_two_pow_24_half : roundF32 (16777216 + 1 / 2) = 16777216 := by
  rw [roundF32, ulpExp_two_pow_24_half]
  have : ((16777216 + 1 / 2 : ℚ) / 2 ^ (1 : ℤ)) = 33554433 / 4 := by norm_num
  rw [this, roundNearestEven_quarter]
  norm_num

theorem roundNearestEven_intCast (n : ℤ) : roundNearestEven (n : ℚ) = n := by
  simp [roundNearestEven]

/-- Rounding leaves a binary32 value as it is. -/
theorem roundF32_of_isF32 {q : ℚ} (h : isF32 q) : roundF32 q = q := by
  obtain ⟨m, e, hm, he, -, rfl⟩ := h
  by_cases hm0 : m = 0
  · subst hm0
    simp [roundF32, roundNearestEven]
  have hq0 : (0 : ℚ) < |(m : ℚ) * 2 ^ e| := by
    rw [abs_pos]
    exact mul_ne_zero (by exact_mod_cast hm0) (zpow_ne_zero _ (by norm_num))
  have hlt : |(m : ℚ) * 2 ^ e| < (2 : ℚ) ^ (e + 24) := by
    rw [abs_mul, abs_of_pos (zpow_pos (by norm_num : (0 : ℚ) < 2) e), zpow_add₀ (by norm_num),
      mul_comm]
    apply mul_lt_mul_of_pos_left _ (zpow_pos (by norm_num) e)
    rw [← Int.cast_abs]; exact_mod_cast hm
  have hlog : Int.log 2 |(m : ℚ) * 2 ^ e| < e + 24 := by
    rw [← Int.lt_zpow_iff_log_lt (by norm_num) hq0]
    simpa using hlt
  have hE : ulpExp ((m : ℚ) * 2 ^ e) ≤ e := by
    unfold ulpExp; omega
  obtain ⟨d, hd⟩ : ∃ d : ℕ, e = ulpExp ((m : ℚ) * 2 ^ e) + d :=
    ⟨(e - ulpExp ((m : ℚ) * 2 ^ e)).toNat, by omega⟩
  have hdiv : (m : ℚ) * 2 ^ e / 2 ^ ulpExp ((m : ℚ) * 2 ^ e) = ((m * 2 ^ d : ℤ) : ℚ) := by
    rw [div_eq_iff (zpow_ne_zero _ (by norm_num))]
    conv_lhs => rw [hd]
    rw [zpow_add₀ (by norm_num)]
    push_cast
    rw [zpow_natCast]
    ring
  rw [roundF32, hdiv, roundNearestEven_intCast, ← hdiv]
  exact div_mul_cancel₀ _ (zpow_ne_zero _ (by norm_num))

/-- Multiples of `0.5` below `2^23` in magnitude are binary32 values. -/
theorem isF32_half (j : ℤ) (h : |j| < 2 ^ 24) : isF32 ((j : ℚ) / 2) :=
  ⟨j, -1, h, by norm_num, by norm_num, by rw [zpow_neg_one]; ring⟩

theorem handleEvent_d_center (s : Scene) :
    (handleEvent s (SDL_Event.SDL_KEYDOWN SDL_Keycode.SDLK_d)).g_camera.m_center
      = ⟨f32Add s.g_camera.m_center.x (1 / 2), s.g_camera.m_center.y⟩ := rfl

theorem PollEvents_d_center (s : Scene) (n : ℕ)
    (h : ∀ k : ℕ, 1 ≤ k → k ≤ n → isF32 (s.g_camera.m_center.x + 1 / 2 * k)) :
    (PollEvents s (List.replicate n (SDL_Event.SDL_KEYDOWN SDL_Keycode.SDLK_d))).g_camera.m_center
      = ⟨s.g_camera.m_center.x + 1 / 2 * n, s.g_camera.m_center.y⟩ := by
  induction n with
  | zero => simp [PollEvents]
  | succ n ih =>
    have ih1 := ih (fun k h1 h2 => h k h1 (Nat.le_succ_of_le h2))
    have hn := h (n + 1) (Nat.succ_le_succ (Nat.zero_le n)) (Nat.le_refl _)
    rw [List.replicate_succ', PollEvents_append, PollEvents_cons, PollEvents_nil,
      handleEvent_d_center, ih1]
    have e : s.g_camera.m_center.x + 1 / 2 * (n : ℚ) + 1 / 2
        = s.g_camera.m_center.x + 1 / 2 * ((n + 1 : ℕ) : ℚ) := by
      push_cast; ring
    show (⟨roundF32 (s.g_camera.m_center.x + 1 / 2 * (n : ℚ) + 1 / 2), _⟩ : b2Vec2) = _
    rw [e, roundF32_of_isF32 hn]

/-- C4 as stated fails: the camera center is held in single precision, and at
x = 16777216 (a binary32 value) a key-down of d leaves center.x where it was
instead of moving it to 16777216.5. -/
theorem camera_step_lost_at_two_pow_24 :
    isF32 16777216 ∧
    (PollEvents (sceneAt 16777216 0)
      [SDL_Event.SDL_KEYDOWN SDL_Keycode.SDLK_d]).g_camera.m_center = ⟨16777216, 0⟩ ∧
    (PollEvents (sceneAt 16777216 0)
      [SDL_Event.SDL_KEYDOWN SDL_Keycode.SDLK_d]).g_camera.m_center ≠ ⟨16777216 + 1 / 2, 0⟩ := by
  have h : (PollEvents (sceneAt 16777216 0)
      [SDL_Event.SDL_KEYDOWN SDL_Keycode.SDLK_d]).g_camera.m_center = ⟨16777216, 0⟩ := by
    show (⟨roundF32 (16777216 + 1 / 2), 0⟩ : b2Vec2) = _
    rw [roundF32_two_pow_24_half]
  refine ⟨⟨8388608, 1, by norm_num, by norm_num, by norm_num, by norm_num⟩, h, ?_⟩
  rw [h]
  intro hne
  injection hne with hx _
  norm_num at hx

/-- C4, amended: whenever the exact result is a binary32 value, a single
key-down of a, d, w or s yields center (x-0.5, y), (x+0.5, y), (x, y+0.5) or
(x, y-0.5); and n key-downs of d move center.x by exactly 0.5*n, leaving
center.y unchanged, whenever every intermediate x + 0.5*k is a binary32
value. -/
theorem camera_step_exact_when_representable (s : Scene) :
    (isF32 (s.g_camera.m_center.x - 1 / 2) →
      (PollEvents s [SDL_Event.SDL_KEYDOWN SDL_Keycode.SDLK_a]).g_camera.m_center
        = ⟨s.g_camera.m_center.x - 1 / 2, s.g_camera.m_center.y⟩) ∧
    (isF32 (s.g_camera.m_center.x + 1 / 2) →
      (PollEvents s [SDL_Event.SDL_KEYDOWN SDL_Keycode.SDLK_d]).g_camera.m_center
        = ⟨s.g_camera.m_center.x + 1 / 2, s.g_camera.m_center.y⟩) ∧
    (isF32 (s.g_camera.m_center.y + 1 / 2) →
      (PollEvents s [SDL_Event.SDL_KEYDOWN SDL_Keycode.SDLK_w]).g_camera.m_center
        = ⟨s.g_camera.m_center.x, s.g_camera.m_center.y + 1 / 2⟩) ∧
    (isF32 (s.g_camera.m_center.y - 1 / 2) →
      (PollEvents s [SDL_Event.SDL_KEYDOWN SDL_Keycode.SDLK_s]).g_camera.m_center
        = ⟨s.g_camera.m_center.x, s.g_camera.m_center.y - 1 / 2⟩) ∧
    (∀ n : ℕ, (∀ k : ℕ, 1 ≤ k → k ≤ n → isF32 (s.g_camera.m_center.x + 1 / 2 * k)) →
      (PollEvents s
        (List.replicate n (SDL_Event.SDL_KEYDOWN SDL_Keycode.SDLK_d))).g_camera.m_center
        = ⟨s.g_camera.m_center.x + 1 / 2 * n, s.g_camera.m_center.y⟩) := by
  refine ⟨?_, ?_, ?_, ?_, fun n h => PollEvents_d_center s n h⟩
  · intro h
    show (⟨roundF32 (s.g_camera.m_center.x - 1 / 2), _⟩ : b2Vec2) = _
    rw [roundF32_of_isF32 h]
  · intro h
    show (⟨roundF32 (s.g_camera.m_center.x + 1 / 2), _⟩ : b2Vec2) = _
    rw [roundF32_of_isF32 h]
  · intro h
    show (⟨_, roundF32 (s.g_camera.m_center.y + 1 / 2)⟩ : b2Vec2) = _
    rw [roundF32_of_isF32 h]
  · intro h
    show (⟨_, roundF32 (s.g_camera.m_center.y - 1 / 2)⟩ : b2Vec2) = _
    rw [roundF32_of_isF32 h]

/-- Witness for C4 amended: from center (0, 0), two key-downs of d. -/
theorem camera_step_exact_when_representable_witness :
    (PollEvents (sceneAt 0 0)
      (List.replicate 2 (SDL_Event.SDL_KEYDOWN SDL_Keycode.SDLK_d))).g_camera.m_center
      = ⟨0 + 1 / 2 * (2 : ℕ), 0⟩ :=
  (camera_step_exact_when_representable (sceneAt 0 0)).2.2.2.2 2 (by
    intro k _ h2
    have hk : |(k : ℤ)| < 2 ^ 24 := by
      rw [abs_of_nonneg (Int.natCast_nonneg k)]
      omega
    have h := isF32_half (k : ℤ) hk
    have e : (sceneAt 0 0).g_camera.m_center.x + 1 / 2 * (k : ℚ) = (((k : ℤ) : ℚ)) / 2 := by
      show (0 : ℚ) + 1 / 2 * (k : ℚ) = _
      push_cast
      ring
    rw [e]
    exact h)

/-! ## Teardown order -/

/-- C10 as stated fails: the destructor body releases the renderer and the
window first; the entities and the world, being members, are destroyed only
afterwards, whichever way the two members are declared. -/
theorem renderer_released_before_entities :
    Scene_destroy true exampleScene =
      [Teardown.SDL_DestroyRenderer 2, Teardown.SDL_DestroyWindow 1, Teardown.SDL_Quit,
        Teardown.destroyEntity ⟨EntityKind.Box, 0, true⟩,
        Teardown.destroyEntity ⟨EntityKind.Edge, 1, true⟩, Teardown.destroyWorld] ∧
    ¬ ReleasedAfterTeardown (Scene_destroy true exampleScene) ∧
    ¬ ReleasedAfterTeardown (Scene_destroy false exampleScene) := by
  refine ⟨rfl, ?_, ?_⟩
  · intro h
    have h1 := (h [] [Teardown.SDL_DestroyWindow 1, Teardown.SDL_Quit,
      Teardown.destroyEntity ⟨EntityKind.Box, 0, true⟩,
      Teardown.destroyEntity ⟨EntityKind.Edge, 1, true⟩, Teardown.destroyWorld]
      (Teardown.SDL_DestroyRenderer 2) rfl rfl).1
    exact h1 (by simp)
  · intro h
    have h1 := (h [] [Teardown.SDL_DestroyWindow 1, Teardown.SDL_Quit, Teardown.destroyWorld,
      Teardown.destroyEntity ⟨EntityKind.Box, 0, true⟩,
      Teardown.destroyEntity ⟨EntityKind.Edge, 1, true⟩]
      (Teardown.SDL_DestroyRenderer 2) rfl rfl).1
    exact h1 (by simp)

/-- C10, amended: teardown starts with the destructor body, which releases
the renderer, then the window, then shuts SDL down; the physics world and
every entity of the collection are destroyed after that, and nothing after
the body releases a renderer or a window. -/
theorem teardown_releases_renderer_first (worldDeclaredFirst : Bool) (s : Scene) :
    ∃ rest : List Teardown,
      Scene_destroy worldDeclaredFirst s =
        Teardown.SDL_DestroyRenderer s.m_SDL_Renderer ::
          Teardown.SDL_DestroyWindow s.m_SDL_Window :: Teardown.SDL_Quit :: rest ∧
      Teardown.destroyWorld ∈ rest ∧
      (∀ e ∈ s.m_entityList, Teardown.destroyEntity e ∈ rest) ∧
      (∀ x ∈ rest, isRelease x = false) := by
  refine ⟨memberDestruction worldDeclaredFirst s, rfl, ?_, ?_, ?_⟩
  · cases worldDeclaredFirst <;> simp [memberDestruction]
  · intro e he
    cases worldDeclaredFirst <;> simp [memberDestruction, he]
  · intro x hx
    cases worldDeclaredFirst
    · simp only [memberDestruction, Bool.false_eq_true, if_false, List.mem_cons,
        List.mem_map] at hx
      rcases hx with rfl | ⟨e, -, rfl⟩ <;> rfl
    · simp only [memberDestruction, if_true, List.mem_append, List.mem_map,
        List.mem_singleton] at hx
      rcases hx with ⟨e, -, rfl⟩ | rfl <;> rfl

end LevelEditor
